import Mathlib

/-!
Verification of the simple-notes backend (FastAPI + SQLite CRUD service).

The development shallowly embeds the three source modules:

* `models.py` — pydantic request models (`NoteCreate`, `NoteUpdate`) and their
  field constraints (`title`: 1..200 characters, `content`: at least 1).
* `db.py` — schema initialization (`init_db`: `CREATE TABLE IF NOT EXISTS notes`,
  `CREATE TRIGGER IF NOT EXISTS notes_set_updated_at`) and `fetch_one_note`.
* `main.py` — the five request handlers `create_note`, `list_notes`, `get_note`,
  `update_note`, `delete_note`.

The SQLite store is modelled as the list of rows of the `notes` table in rowid
order together with the AUTOINCREMENT counter.  `CURRENT_TIMESTAMP` is modelled
as an explicit `now : Nat` argument.  Exceptional behaviour of the database
driver (a `sqlite3.IntegrityError` raised by an `INSERT`/`UPDATE`, or a
post-commit read-back returning no row) is modelled by a `DbFault` parameter so
that the `try/except` structure of the handlers can be stated; `DbFault.none`
is the normal, fault-free execution.
-/

namespace NotesApp

/-! ### Data model (`notes` table row) -/

/-- One row of the `notes` table: columns
`id, title, content, created_at, updated_at` (db.py, `init_db`). -/
structure Note where
  id : Nat
  title : String
  content : String
  created_at : Nat
  updated_at : Nat
deriving DecidableEq, Repr

/-- The SQLite store: the rows of the `notes` table in rowid order, plus the
AUTOINCREMENT counter that supplies the next `id`. -/
structure Store where
  notes : List Note
  nextId : Nat
deriving DecidableEq, Repr

/-- A freshly initialized store: no rows, AUTOINCREMENT starts at 1. -/
def emptyStore : Store := { notes := [], nextId := 1 }

/-! ### models.py — pydantic request models -/

/-- Request body for creating a note (`NoteCreate`, models.py). -/
structure NoteCreate where
  title : String
  content : String
deriving DecidableEq, Repr

/-- Request body for updating a note (`NoteUpdate`, models.py): both fields
optional. -/
structure NoteUpdate where
  title : Option String
  content : Option String
deriving DecidableEq, Repr

/-- Constraint `Field(..., min_length=1, max_length=200)` on `title` (models.py). -/
def validTitleField (t : String) : Bool :=
  1 ≤ t.length && t.length ≤ 200

/-- Constraint `Field(..., min_length=1)` on `content` (models.py). -/
def validContentField (c : String) : Bool :=
  1 ≤ c.length

/-- Pydantic validation of a `NoteCreate` body: both fields required and
well-formed. -/
def NoteCreate.valid (p : NoteCreate) : Bool :=
  validTitleField p.title && validContentField p.content

/-- Pydantic validation of a `NoteUpdate` body: each supplied field must be
well-formed; omitted fields are not checked. -/
def NoteUpdate.valid (p : NoteUpdate) : Bool :=
  (match p.title with
   | some t => validTitleField t
   | none => true) &&
  (match p.content with
   | some c => validContentField c
   | none => true)

/-! ### Errors and driver faults -/

/-- An error response of the service.  `validation` is a rejection by the
pydantic request-model validation at the request boundary; `http s d` is an
`HTTPException(status_code=s, detail=d)` raised inside a handler. -/
inductive ApiError where
  | validation (detail : String)
  | http (status : Nat) (detail : String)
deriving DecidableEq, Repr

/-- A 4xx response: the caller is blamed (validation errors are 4xx as well). -/
def ApiError.isClientError : ApiError → Bool
  | .validation _ => true
  | .http s _ => 400 ≤ s && s < 500

/-- A 5xx response: the server is blamed. -/
def ApiError.isServerError : ApiError → Bool
  | .validation _ => false
  | .http s _ => 500 ≤ s

/-- Fault injected into the database driver during one request:
`integrityError` models `sqlite3.IntegrityError` raised by the
`INSERT`/`UPDATE` statement; `readBackMissing` models the post-commit
`fetch_one_note` returning no row.  `DbFault.none` is fault-free execution. -/
inductive DbFault where
  | none
  | integrityError
  | readBackMissing
deriving DecidableEq, Repr

/-! ### db.py -/

/-- Function `fetch_one_note` (db.py): `SELECT ... FROM notes WHERE id = ?`, `None` if
no row matches. -/
def fetch_one_note (s : Store) (note_id : Nat) : Option Note :=
  s.notes.find? (fun n => n.id == note_id)

/-- The post-commit read-back (`fetch_one_note` called after `conn.commit()`),
with the `readBackMissing` fault making it return no row. -/
def readBack (fault : DbFault) (s : Store) (note_id : Nat) : Option Note :=
  match fault with
  | .readBackMissing => none
  | _ => fetch_one_note s note_id

/-- One column declaration of the `CREATE TABLE` statement in `init_db`. -/
structure ColumnDef where
  name : String
  sqlType : String
  notNull : Bool
  defaultCurrentTimestamp : Bool
  primaryKeyAutoincrement : Bool
deriving DecidableEq, Repr

/-- The column list of the `notes` table exactly as created by `init_db`
(db.py). -/
def notesTableColumns : List ColumnDef :=
  [ { name := "id", sqlType := "INTEGER", notNull := false,
      defaultCurrentTimestamp := false, primaryKeyAutoincrement := true },
    { name := "title", sqlType := "TEXT", notNull := true,
      defaultCurrentTimestamp := false, primaryKeyAutoincrement := false },
    { name := "content", sqlType := "TEXT", notNull := true,
      defaultCurrentTimestamp := false, primaryKeyAutoincrement := false },
    { name := "created_at", sqlType := "TEXT", notNull := true,
      defaultCurrentTimestamp := true, primaryKeyAutoincrement := false },
    { name := "updated_at", sqlType := "TEXT", notNull := true,
      defaultCurrentTimestamp := true, primaryKeyAutoincrement := false } ]

/-- The `notes_set_updated_at` trigger declaration created by `init_db`
(db.py): `AFTER UPDATE ON notes`, setting `updated_at = CURRENT_TIMESTAMP`
for the updated row. -/
structure TriggerDef where
  name : String
  timing : String
  body : String
deriving DecidableEq, Repr

/-- The trigger exactly as created by `init_db`. -/
def notes_set_updated_at : TriggerDef :=
  { name := "notes_set_updated_at",
    timing := "AFTER UPDATE ON notes FOR EACH ROW",
    body := "UPDATE notes SET updated_at = CURRENT_TIMESTAMP WHERE id = OLD.id" }

/-- The schema objects of the SQLite database file: the `notes` table and the
`updated_at` trigger, each present or absent. -/
structure Schema where
  notesTable : Option (List ColumnDef)
  updatedAtTrigger : Option TriggerDef
deriving DecidableEq, Repr

/-- Statement `CREATE TABLE IF NOT EXISTS notes (...)`: creates the table when absent,
leaves an existing table untouched. -/
def createNotesTableIfNotExists : Option (List ColumnDef) → Option (List ColumnDef)
  | Option.none => some notesTableColumns
  | some t => some t

/-- Statement `CREATE TRIGGER IF NOT EXISTS notes_set_updated_at ...`: creates the
trigger when absent, leaves an existing trigger untouched. -/
def createTriggerIfNotExists : Option TriggerDef → Option TriggerDef
  | Option.none => some notes_set_updated_at
  | some t => some t

/-- Function `init_db` (db.py): ensure the notes schema exists. -/
def init_db (sch : Schema) : Schema :=
  { notesTable := createNotesTableIfNotExists sch.notesTable,
    updatedAtTrigger := createTriggerIfNotExists sch.updatedAtTrigger }

/-! ### main.py — request handlers

Each handler takes the current store, the (already parsed) request data, the
current time `now` (SQLite `CURRENT_TIMESTAMP`) and the injected driver fault,
and returns the response together with the store left behind by the request.
The `*_endpoint` wrappers add the pydantic request-body validation performed
by FastAPI before the handler body runs. -/

/-- Handler body of `create_note` (main.py): `INSERT INTO notes (title, content)
VALUES (?, ?)` (both timestamps defaulting to `CURRENT_TIMESTAMP`), commit,
read the row back; `sqlite3.IntegrityError` is mapped to HTTP 400 and a failed
read-back to HTTP 500. -/
def create_note (s : Store) (payload : NoteCreate) (now : Nat) (fault : DbFault) :
    Except ApiError Note × Store :=
  if fault = DbFault.integrityError then
    (Except.error (ApiError.http 400 "Invalid note data"), s)
  else
    let note : Note :=
      { id := s.nextId, title := payload.title, content := payload.content,
        created_at := now, updated_at := now }
    let committed : Store := { notes := s.notes ++ [note], nextId := s.nextId + 1 }
    match readBack fault committed s.nextId with
    | some created => (Except.ok created, committed)
    | Option.none =>
        (Except.error (ApiError.http 500 "Failed to load created note"), committed)

/-- Endpoint `POST /notes`: pydantic validation of the `NoteCreate` body, then the
handler body. -/
def create_endpoint (s : Store) (payload : NoteCreate) (now : Nat) (fault : DbFault) :
    Except ApiError Note × Store :=
  if payload.valid then create_note s payload now fault
  else (Except.error (ApiError.validation "NoteCreate body rejected"), s)

/-- The `ORDER BY datetime(updated_at) DESC, id DESC` comparison of
`list_notes` (main.py): `a` comes no later than `b` when `a` has the larger
`updated_at`, or equal `updated_at` and the larger `id`. -/
def noteLE (a b : Note) : Bool :=
  b.updated_at < a.updated_at || (a.updated_at == b.updated_at && b.id ≤ a.id)

/-- Handler `list_notes` (main.py): `SELECT ... FROM notes ORDER BY
datetime(updated_at) DESC, id DESC`. -/
def list_notes (s : Store) : List Note :=
  s.notes.mergeSort noteLE

/-- Handler `get_note` (main.py): fetch by id, HTTP 404 when absent.  It never
mutates the store. -/
def get_note (s : Store) (note_id : Nat) : Except ApiError Note :=
  match fetch_one_note s note_id with
  | some note => Except.ok note
  | Option.none => Except.error (ApiError.http 404 "Note not found")

/-- Effect of `UPDATE notes SET title = ?, content = ? WHERE id = ?` combined
with the `notes_set_updated_at` trigger on one row: the matching row gets the
new `title`/`content` and `updated_at = CURRENT_TIMESTAMP`; other rows are
untouched. -/
def applyUpdate (note_id : Nat) (new_title new_content : String) (now : Nat)
    (n : Note) : Note :=
  if n.id = note_id then
    { n with title := new_title, content := new_content, updated_at := now }
  else n

/-- Handler body of `update_note` (main.py): reject when both fields are omitted
(HTTP 400, before any database access); 404 when the row is absent; otherwise
`UPDATE notes SET title = ?, content = ? WHERE id = ?` with omitted fields
keeping their current values — the `notes_set_updated_at` trigger sets
`updated_at = CURRENT_TIMESTAMP` on the updated row — commit, read back.
`sqlite3.IntegrityError` maps to HTTP 400, a failed read-back to HTTP 500. -/
def update_note (s : Store) (note_id : Nat) (payload : NoteUpdate) (now : Nat)
    (fault : DbFault) : Except ApiError Note × Store :=
  if payload.title.isNone && payload.content.isNone then
    (Except.error (ApiError.http 400 "At least one of title or content must be provided"), s)
  else
    match fetch_one_note s note_id with
    | Option.none => (Except.error (ApiError.http 404 "Note not found"), s)
    | some existing =>
        if fault = DbFault.integrityError then
          (Except.error (ApiError.http 400 "Invalid note data"), s)
        else
          let new_title := payload.title.getD existing.title
          let new_content := payload.content.getD existing.content
          let committed : Store :=
            { s with notes :=
                s.notes.map (applyUpdate note_id new_title new_content now) }
          match readBack fault committed note_id with
          | some updated => (Except.ok updated, committed)
          | Option.none =>
              (Except.error (ApiError.http 500 "Failed to load updated note"), committed)

/-- Endpoint `PUT /notes/...`: pydantic validation of the `NoteUpdate` body, then the
handler body. -/
def update_endpoint (s : Store) (note_id : Nat) (payload : NoteUpdate) (now : Nat)
    (fault : DbFault) : Except ApiError Note × Store :=
  if payload.valid then update_note s note_id payload now fault
  else (Except.error (ApiError.validation "NoteUpdate body rejected"), s)

/-- Handler `delete_note` (main.py): `DELETE FROM notes WHERE id = ?`, commit,
then HTTP 404 when `rowcount` is zero. -/
def delete_note (s : Store) (note_id : Nat) : Except ApiError Unit × Store :=
  let remaining := s.notes.filter (fun n => !(n.id == note_id))
  let rowcount := s.notes.length - remaining.length
  let committed : Store := { s with notes := remaining }
  (if rowcount = 0 then Except.error (ApiError.http 404 "Note not found")
   else Except.ok (),
   committed)


/-! ### Helper lemmas -/

/-- Unfolding of the listing comparison into arithmetic. -/
theorem noteLE_iff (a b : Note) :
    noteLE a b = true ↔
      b.updated_at < a.updated_at ∨ (a.updated_at = b.updated_at ∧ b.id ≤ a.id) := by
  simp [noteLE]

/-- Transitivity of the listing comparison. -/
theorem noteLE_trans (a b c : Note) :
    noteLE a b = true → noteLE b c = true → noteLE a c = true := by
  simp only [noteLE_iff]
  omega

/-- Totality of the listing comparison. -/
theorem noteLE_total (a b : Note) : (noteLE a b || noteLE b a) = true := by
  simp only [Bool.or_eq_true, noteLE_iff]
  omega

/-- The order in which `list_notes` presents its result: `a` is listed no
later than `b` iff `a` has the strictly larger `updated_at`, or the same
`updated_at` and the larger (or equal) `id` — i.e. `updated_at` descending,
ties broken by `id` descending. -/
def listedBefore (a b : Note) : Prop :=
  b.updated_at < a.updated_at ∨ (a.updated_at = b.updated_at ∧ b.id ≤ a.id)

/-! ### Claim theorems -/

/-- C2: for every store state, `list_notes` returns exactly the persisted
notes (a permutation of the rows), pairwise ordered by `updated_at`
descending with ties broken by `id` descending; on the empty store it
returns the empty sequence (and never an error). -/
theorem list_notes_complete_sorted_empty (s : Store) :
    (list_notes s).Perm s.notes ∧
    List.Pairwise listedBefore (list_notes s) ∧
    list_notes emptyStore = [] := by
  refine ⟨List.mergeSort_perm s.notes noteLE, ?_, by simp [list_notes, emptyStore]⟩
  have hs := List.sorted_mergeSort noteLE_trans
    (fun a b => noteLE_total a b) s.notes
  exact hs.imp (fun h => (noteLE_iff _ _).1 h)

/-- C9: `init_db` is idempotent — running it a second time on a schema on
which it has already run changes nothing — and after any call both the
`notes` table and the `notes_set_updated_at` trigger exist. -/
theorem init_db_idempotent_and_ensures_schema (sch : Schema) :
    init_db (init_db sch) = init_db sch ∧
    (init_db sch).notesTable.isSome = true ∧
    (init_db sch).updatedAtTrigger.isSome = true := by
  obtain ⟨tbl, trg⟩ := sch
  cases tbl <;> cases trg <;>
    simp [init_db, createNotesTableIfNotExists, createTriggerIfNotExists]

/-- C5: for an existing note id, an update request with both `title` and
`content` omitted fails with the 400 validation error raised before any
database access, and the store is left exactly as it was. -/
theorem update_both_omitted_existing_rejected (s : Store) (note_id : Nat) (now : Nat)
    (fault : DbFault) (old : Note) (hexists : fetch_one_note s note_id = some old) :
    update_endpoint s note_id ⟨Option.none, Option.none⟩ now fault =
      (Except.error
        (ApiError.http 400 "At least one of title or content must be provided"), s) := by
  simp [update_endpoint, update_note, NoteUpdate.valid]

/-- Witness for C5: a concrete one-note store. -/
theorem update_both_omitted_existing_rejected_witness :
    update_endpoint { notes := [⟨1, "a", "b", 0, 0⟩], nextId := 2 } 1
        ⟨Option.none, Option.none⟩ 7 DbFault.none =
      (Except.error
        (ApiError.http 400 "At least one of title or content must be provided"),
       { notes := [⟨1, "a", "b", 0, 0⟩], nextId := 2 }) :=
  update_both_omitted_existing_rejected
    { notes := [⟨1, "a", "b", 0, 0⟩], nextId := 2 } 1 7 DbFault.none
    ⟨1, "a", "b", 0, 0⟩ (by decide)

/-- C10: for an id that is not in the store, an update request with both
fields omitted still fails with the 400 validation error — the
both-fields-omitted check runs before the existence check — and not with the
404 not-found error. -/
theorem update_both_omitted_absent_still_validation (s : Store) (note_id : Nat)
    (now : Nat) (fault : DbFault)
    (habsent : fetch_one_note s note_id = Option.none) :
    update_endpoint s note_id ⟨Option.none, Option.none⟩ now fault =
      (Except.error
        (ApiError.http 400 "At least one of title or content must be provided"), s) ∧
    (update_endpoint s note_id ⟨Option.none, Option.none⟩ now fault).1 ≠
      Except.error (ApiError.http 404 "Note not found") := by
  simp [update_endpoint, update_note, NoteUpdate.valid]

/-- Witness for C10: the empty store has no note with id 1. -/
theorem update_both_omitted_absent_still_validation_witness :
    update_endpoint emptyStore 1 ⟨Option.none, Option.none⟩ 7 DbFault.none =
      (Except.error
        (ApiError.http 400 "At least one of title or content must be provided"),
       emptyStore) ∧
    (update_endpoint emptyStore 1 ⟨Option.none, Option.none⟩ 7 DbFault.none).1 ≠
      Except.error (ApiError.http 404 "Note not found") :=
  update_both_omitted_absent_still_validation emptyStore 1 7 DbFault.none (by decide)

/-- C6: deleting an id that is not in the store yields the 404 error and
leaves the store unchanged; and after any delete of an id, getting that id
yields the 404 error. -/
theorem delete_absent_404_and_delete_then_get_404 (s : Store) (note_id : Nat) :
    (fetch_one_note s note_id = Option.none →
      delete_note s note_id = (Except.error (ApiError.http 404 "Note not found"), s)) ∧
    get_note (delete_note s note_id).2 note_id =
      Except.error (ApiError.http 404 "Note not found") := by
  constructor
  · intro habsent
    have hall : ∀ n ∈ s.notes, ¬(n.id == note_id) = true :=
      List.find?_eq_none.1 habsent
    have hfilter : s.notes.filter (fun n => !(n.id == note_id)) = s.notes :=
      List.filter_eq_self.2 (fun n hn => by simp [hall n hn])
    simp [delete_note, hfilter]
  · have hnone :
        (s.notes.filter (fun n => !(n.id == note_id))).find?
          (fun n => n.id == note_id) = Option.none := by
      refine List.find?_eq_none.2 (fun n hn => ?_)
      have := (List.mem_filter.1 hn).2
      simp at this
      simp [this]
    simp [get_note, delete_note, fetch_one_note, hnone]

/-- Witness for C6: a concrete one-note store. -/
theorem delete_absent_404_and_delete_then_get_404_witness :
    delete_note emptyStore 1 = (Except.error (ApiError.http 404 "Note not found"), emptyStore) ∧
    get_note (delete_note { notes := [⟨1, "a", "b", 0, 0⟩], nextId := 2 } 1).2 1 =
      Except.error (ApiError.http 404 "Note not found") :=
  ⟨(delete_absent_404_and_delete_then_get_404 emptyStore 1).1 (by decide),
   (delete_absent_404_and_delete_then_get_404
      { notes := [⟨1, "a", "b", 0, 0⟩], nextId := 2 } 1).2⟩


/-- Auxiliary: `find?` by id over a map with an id-preserving function
commutes with the map. -/
theorem find?_map_id_preserving (l : List Note) (note_id : Nat) (g : Note → Note)
    (hg : ∀ n, (g n).id = n.id) :
    (l.map g).find? (fun n => n.id == note_id) =
      (l.find? (fun n => n.id == note_id)).map g := by
  induction l with
  | nil => rfl
  | cons a t ih =>
    by_cases hid : a.id = note_id
    · simp [List.find?_cons, hg, hid]
    · simp [List.find?_cons, hg, hid, ih]

/-- The row transformation of an update preserves the `id` column. -/
theorem applyUpdate_preserves_id (note_id : Nat) (tt cc : String) (now : Nat)
    (n : Note) : (applyUpdate note_id tt cc now n).id = n.id := by
  by_cases h : n.id = note_id <;> simp [applyUpdate, h]

/-- Fetching the updated id after an update returns the transformed row. -/
theorem fetch_one_note_map_applyUpdate (s : Store) (note_id : Nat)
    (tt cc : String) (now : Nat) :
    fetch_one_note
        { s with notes := s.notes.map (applyUpdate note_id tt cc now) } note_id =
      (fetch_one_note s note_id).map (applyUpdate note_id tt cc now) := by
  simpa [fetch_one_note] using
    find?_map_id_preserving s.notes note_id (applyUpdate note_id tt cc now)
      (applyUpdate_preserves_id note_id tt cc now)

/-- C1: on a store whose ids are all below the AUTOINCREMENT counter, creating
a note from a valid body succeeds, and getting the returned id returns the
very note returned by create, whose `title`/`content` are the inputs and whose
`created_at` equals `updated_at`. -/
theorem create_then_get_roundtrip (s : Store) (p : NoteCreate) (now : Nat)
    (hfresh : ∀ n ∈ s.notes, n.id < s.nextId) (hvalid : p.valid = true) :
    ∃ note s2,
      create_endpoint s p now DbFault.none = (Except.ok note, s2) ∧
      note.title = p.title ∧
      note.content = p.content ∧
      note.created_at = note.updated_at ∧
      get_note s2 note.id = Except.ok note := by
  have hnone : List.find? (fun n => n.id == s.nextId) s.notes = Option.none :=
    List.find?_eq_none.2 (fun n hn => by simp [Nat.ne_of_lt (hfresh n hn)])
  have hfetch :
      fetch_one_note
        { notes := s.notes ++ [⟨s.nextId, p.title, p.content, now, now⟩],
          nextId := s.nextId + 1 } s.nextId =
        some ⟨s.nextId, p.title, p.content, now, now⟩ := by
    simp [fetch_one_note, List.find?_append, hnone]
  refine ⟨⟨s.nextId, p.title, p.content, now, now⟩,
    { notes := s.notes ++ [⟨s.nextId, p.title, p.content, now, now⟩],
      nextId := s.nextId + 1 }, ?_, rfl, rfl, rfl, ?_⟩
  · simp [create_endpoint, hvalid, create_note, readBack, hfetch]
  · simp [get_note, hfetch]

/-- Witness for C1: creating `("a", "b")` at time 5 on the empty store. -/
theorem create_then_get_roundtrip_witness :
    ∃ note s2,
      create_endpoint emptyStore ⟨"a", "b"⟩ 5 DbFault.none = (Except.ok note, s2) ∧
      note.title = "a" ∧
      note.content = "b" ∧
      note.created_at = note.updated_at ∧
      get_note s2 note.id = Except.ok note :=
  create_then_get_roundtrip emptyStore ⟨"a", "b"⟩ 5 (by simp [emptyStore]) (by decide)

/-- C3: updating an existing note with only a (valid) new title changes only
that note — its `content` and `created_at` are unchanged, its `updated_at`
becomes the current time, which is no earlier than the previous `updated_at`
when the clock has not run backwards — and every other note stays in the
store untouched. -/
theorem update_title_only_frame (s : Store) (note_id : Nat) (t1 : String) (now : Nat)
    (old : Note) (hexists : fetch_one_note s note_id = some old)
    (htitle : validTitleField t1 = true) (hclock : old.updated_at ≤ now) :
    ∃ note s2,
      update_endpoint s note_id ⟨some t1, Option.none⟩ now DbFault.none =
        (Except.ok note, s2) ∧
      note.title = t1 ∧
      note.content = old.content ∧
      note.created_at = old.created_at ∧
      old.updated_at ≤ note.updated_at ∧
      ∀ m ∈ s.notes, m.id ≠ note_id → m ∈ s2.notes := by
  have hid : old.id = note_id := by
    have := List.find?_some hexists
    simpa using this
  have hvalid : (⟨some t1, Option.none⟩ : NoteUpdate).valid = true := by
    simp [NoteUpdate.valid, htitle]
  have happly : applyUpdate note_id t1 old.content now old =
      { old with title := t1, content := old.content, updated_at := now } := by
    simp [applyUpdate, hid]
  refine ⟨{ old with title := t1, content := old.content, updated_at := now },
    { s with notes := s.notes.map (applyUpdate note_id t1 old.content now) },
    ?_, rfl, rfl, rfl, hclock, ?_⟩
  · simp [update_endpoint, hvalid, update_note, hexists, readBack,
      fetch_one_note_map_applyUpdate, happly]
  · intro m hm hne
    exact List.mem_map.2 ⟨m, hm, by simp [applyUpdate, hne]⟩

/-- Witness for C3: retitling the sole note of a one-note store. -/
theorem update_title_only_frame_witness :
    ∃ note s2,
      update_endpoint { notes := [⟨1, "a", "b", 2, 3⟩], nextId := 2 } 1
          ⟨some "t", Option.none⟩ 7 DbFault.none =
        (Except.ok note, s2) ∧
      note.title = "t" ∧
      note.content = "b" ∧
      note.created_at = 2 ∧
      3 ≤ note.updated_at ∧
      ∀ m ∈ ({ notes := [⟨1, "a", "b", 2, 3⟩], nextId := 2 } : Store).notes,
        m.id ≠ 1 → m ∈ s2.notes :=
  update_title_only_frame { notes := [⟨1, "a", "b", 2, 3⟩], nextId := 2 } 1 "t" 7
    ⟨1, "a", "b", 2, 3⟩ (by decide) (by decide) (by decide)

/-- C7: a create body with an empty title, empty content or a title of more
than 200 characters, and likewise an update body supplying an empty title,
empty content or an overlong title, are rejected by the request-model
validation and the store is left unchanged. -/
theorem invalid_field_rejected (s : Store) (note_id now : Nat) (fault : DbFault)
    (p : NoteCreate) (q : NoteUpdate)
    (hp : p.title = "" ∨ p.content = "" ∨ 200 < p.title.length)
    (hq : q.title = some "" ∨ q.content = some "" ∨
          (∃ t2, q.title = some t2 ∧ 200 < t2.length)) :
    create_endpoint s p now fault =
      (Except.error (ApiError.validation "NoteCreate body rejected"), s) ∧
    update_endpoint s note_id q now fault =
      (Except.error (ApiError.validation "NoteUpdate body rejected"), s) := by
  have hpv : p.valid = false := by
    rcases hp with h | h | h
    · simp [NoteCreate.valid, validTitleField, h]
    · simp [NoteCreate.valid, validContentField, h]
    · have h200 : ¬ (p.title.length ≤ 200) := by omega
      simp [NoteCreate.valid, validTitleField, h200]
    -- each case falsifies one conjunct of the pydantic check
  have hqv : q.valid = false := by
    rcases hq with h | h | ⟨t2, ht2, hlen⟩
    · simp [NoteUpdate.valid, validTitleField, h]
    · simp [NoteUpdate.valid, validContentField, h]
    · have h200 : ¬ (t2.length ≤ 200) := by omega
      simp [NoteUpdate.valid, validTitleField, ht2, h200]
  exact ⟨by simp [create_endpoint, hpv], by simp [update_endpoint, hqv]⟩

/-- Witness for C7: an empty create title and an empty update title. -/
theorem invalid_field_rejected_witness :
    create_endpoint emptyStore ⟨"", "c"⟩ 3 DbFault.none =
      (Except.error (ApiError.validation "NoteCreate body rejected"), emptyStore) ∧
    update_endpoint emptyStore 1 ⟨some "", Option.none⟩ 3 DbFault.none =
      (Except.error (ApiError.validation "NoteUpdate body rejected"), emptyStore) :=
  invalid_field_rejected emptyStore 1 3 DbFault.none ⟨"", "c"⟩ ⟨some "", Option.none⟩
    (Or.inl rfl) (Or.inl rfl)

/-- C4 counterexample: a constraint violation (`sqlite3.IntegrityError`)
during create is surfaced as HTTP 400 — a client error, not a server error —
contradicting the claim that every underlying store failure is surfaced as a
server error. -/
theorem constraint_violation_client_error_cex :
    (create_endpoint emptyStore ⟨"a", "b"⟩ 5 DbFault.integrityError).1 =
      Except.error (ApiError.http 400 "Invalid note data") ∧
    (ApiError.http 400 "Invalid note data").isClientError = true ∧
    (ApiError.http 400 "Invalid note data").isServerError = false :=
  ⟨rfl, rfl, rfl⟩

/-- C4 amended: a post-commit read-back failure during create or update is
surfaced as HTTP 500, a server error; a constraint violation during create or
update is surfaced as HTTP 400 "Invalid note data", a client error, not a
server error. -/
theorem storage_failure_mapping (s : Store) (p : NoteCreate) (q : NoteUpdate)
    (note_id now : Nat) (old : Note)
    (hp : p.valid = true) (hq : q.valid = true)
    (hq2 : (q.title.isNone && q.content.isNone) = false)
    (hexists : fetch_one_note s note_id = some old) :
    (create_endpoint s p now DbFault.readBackMissing).1 =
      Except.error (ApiError.http 500 "Failed to load created note") ∧
    (update_endpoint s note_id q now DbFault.readBackMissing).1 =
      Except.error (ApiError.http 500 "Failed to load updated note") ∧
    (create_endpoint s p now DbFault.integrityError).1 =
      Except.error (ApiError.http 400 "Invalid note data") ∧
    (update_endpoint s note_id q now DbFault.integrityError).1 =
      Except.error (ApiError.http 400 "Invalid note data") ∧
    (ApiError.http 500 "Failed to load created note").isServerError = true ∧
    (ApiError.http 500 "Failed to load updated note").isServerError = true ∧
    (ApiError.http 400 "Invalid note data").isClientError = true ∧
    (ApiError.http 400 "Invalid note data").isServerError = false := by
  refine ⟨?_, ?_, ?_, ?_, by decide, by decide, by decide, by decide⟩
  · simp [create_endpoint, hp, create_note, readBack]
  · simp [update_endpoint, hq, update_note, hq2, hexists, readBack]
  · simp [create_endpoint, hp, create_note]
  · simp [update_endpoint, hq, update_note, hq2, hexists]

/-- Witness for the amended C4: a one-note store, a valid create body and a
valid title-only update body. -/
theorem storage_failure_mapping_witness :
    (create_endpoint { notes := [⟨1, "a", "b", 0, 0⟩], nextId := 2 } ⟨"x", "y"⟩ 5
        DbFault.readBackMissing).1 =
      Except.error (ApiError.http 500 "Failed to load created note") ∧
    (update_endpoint { notes := [⟨1, "a", "b", 0, 0⟩], nextId := 2 } 1
        ⟨some "z", Option.none⟩ 5 DbFault.readBackMissing).1 =
      Except.error (ApiError.http 500 "Failed to load updated note") ∧
    (create_endpoint { notes := [⟨1, "a", "b", 0, 0⟩], nextId := 2 } ⟨"x", "y"⟩ 5
        DbFault.integrityError).1 =
      Except.error (ApiError.http 400 "Invalid note data") ∧
    (update_endpoint { notes := [⟨1, "a", "b", 0, 0⟩], nextId := 2 } 1
        ⟨some "z", Option.none⟩ 5 DbFault.integrityError).1 =
      Except.error (ApiError.http 400 "Invalid note data") ∧
    (ApiError.http 500 "Failed to load created note").isServerError = true ∧
    (ApiError.http 500 "Failed to load updated note").isServerError = true ∧
    (ApiError.http 400 "Invalid note data").isClientError = true ∧
    (ApiError.http 400 "Invalid note data").isServerError = false :=
  storage_failure_mapping { notes := [⟨1, "a", "b", 0, 0⟩], nextId := 2 }
    ⟨"x", "y"⟩ ⟨some "z", Option.none⟩ 1 5 ⟨1, "a", "b", 0, 0⟩
    (by decide) (by decide) (by decide) (by decide)


/-! ### Reachable states and the data-model invariants (C8) -/

/-- The data-model invariants of the spec: ids are pairwise distinct (each id
identifies at most one note), every persisted note has
`updated_at >= created_at`, and no persisted note has an empty `title` or an
empty `content`. -/
def StoreInvariant (s : Store) : Prop :=
  (s.notes.map Note.id).Nodup ∧
  ∀ n ∈ s.notes, n.created_at ≤ n.updated_at ∧ n.title ≠ "" ∧ n.content ≠ ""

/-- Strengthened invariant used for the induction: the data-model invariants
plus AUTOINCREMENT freshness (every stored id is below the counter) and clock
consistency (no stored `created_at` is in the future of the clock `t`). -/
def StoreWF (s : Store) (t : Nat) : Prop :=
  StoreInvariant s ∧ ∀ n ∈ s.notes, n.id < s.nextId ∧ n.created_at ≤ t

/-- States reachable from a freshly initialized store by the five operations,
under a monotone clock.  `list_notes` and `get_note` never mutate the store,
so their steps relate a state to itself; the mutating steps apply the
corresponding endpoint at the current clock value, with any driver fault. -/
inductive Reachable : Store → Nat → Prop where
  | init : Reachable emptyStore 0
  | tick {s : Store} {t t2 : Nat} : Reachable s t → t ≤ t2 → Reachable s t2
  | createStep {s : Store} {t : Nat} (p : NoteCreate) (fault : DbFault) :
      Reachable s t → Reachable (create_endpoint s p t fault).2 t
  | listStep {s : Store} {t : Nat} : Reachable s t → Reachable s t
  | getStep {s : Store} {t : Nat} (note_id : Nat) : Reachable s t → Reachable s t
  | updateStep {s : Store} {t : Nat} (note_id : Nat) (q : NoteUpdate) (fault : DbFault) :
      Reachable s t → Reachable (update_endpoint s note_id q t fault).2 t
  | deleteStep {s : Store} {t : Nat} (note_id : Nat) :
      Reachable s t → Reachable (delete_note s note_id).2 t

/-- A valid title is not the empty string. -/
theorem validTitleField_ne_empty (tt : String) (h : validTitleField tt = true) :
    tt ≠ "" := by
  intro he
  subst he
  simp [validTitleField] at h

/-- A valid content is not the empty string. -/
theorem validContentField_ne_empty (cc : String) (h : validContentField cc = true) :
    cc ≠ "" := by
  intro he
  subst he
  simp [validContentField] at h

/-- Store left behind by a non-`IntegrityError` create: the row is appended
and the counter advances, whether or not the read-back succeeds. -/
theorem create_note_store (s : Store) (p : NoteCreate) (now : Nat) (fault : DbFault)
    (hf : fault ≠ DbFault.integrityError) :
    (create_note s p now fault).2 =
      { notes := s.notes ++
          [⟨s.nextId, p.title, p.content, now, now⟩], nextId := s.nextId + 1 } := by
  simp only [create_note]
  rw [if_neg hf]
  split <;> rfl

/-- Store left behind by an `IntegrityError` create: unchanged. -/
theorem create_note_store_integrity (s : Store) (p : NoteCreate) (now : Nat) :
    (create_note s p now DbFault.integrityError).2 = s := rfl

/-- Store left behind by a non-`IntegrityError` update of an existing row:
exactly the matching row is rewritten, whether or not the read-back
succeeds. -/
theorem update_note_store (s : Store) (note_id : Nat) (payload : NoteUpdate)
    (now : Nat) (fault : DbFault) (old : Note)
    (hno : (payload.title.isNone && payload.content.isNone) = false)
    (hex : fetch_one_note s note_id = some old)
    (hf : fault ≠ DbFault.integrityError) :
    (update_note s note_id payload now fault).2 =
      { s with notes := s.notes.map (applyUpdate note_id
          (payload.title.getD old.title) (payload.content.getD old.content) now) } := by
  simp only [update_note, hno, Bool.false_eq_true, if_false, hex]
  rw [if_neg hf]
  split <;> rfl

/-- Store left behind by a delete: the matching rows are filtered out. -/
theorem delete_note_store (s : Store) (note_id : Nat) :
    (delete_note s note_id).2 =
      { s with notes := s.notes.filter (fun n => !(n.id == note_id)) } := rfl

/-- The create endpoint preserves the strengthened invariant. -/
theorem storeWF_create (s : Store) (t : Nat) (p : NoteCreate) (fault : DbFault)
    (h : StoreWF s t) : StoreWF (create_endpoint s p t fault).2 t := by
  by_cases hval : p.valid = true
  · by_cases hf : fault = DbFault.integrityError
    · simpa [create_endpoint, hval, hf, create_note_store_integrity] using h
    · have hstore := create_note_store s p t fault hf
      simp only [create_endpoint, hval, if_true, hstore]
      obtain ⟨⟨hnodup, hfacts⟩, hbound⟩ := h
      have hvt : validTitleField p.title = true := by
        have := hval
        simp [NoteCreate.valid] at this
        exact this.1
      have hvc : validContentField p.content = true := by
        have := hval
        simp [NoteCreate.valid] at this
        exact this.2
      refine ⟨⟨?_, ?_⟩, ?_⟩
      · simp only [List.map_append, List.map_cons, List.map_nil]
        rw [List.nodup_append]
        refine ⟨hnodup, List.nodup_singleton _, ?_⟩
        intro x hx hx2
        simp only [List.mem_singleton] at hx2
        obtain ⟨n, hn, hnid⟩ := List.mem_map.1 hx
        have := (hbound n hn).1
        omega
      · intro n hn
        rcases List.mem_append.1 hn with hn | hn
        · exact hfacts n hn
        · simp only [List.mem_singleton] at hn
          subst hn
          exact ⟨Nat.le_refl _, validTitleField_ne_empty _ hvt,
            validContentField_ne_empty _ hvc⟩
      · intro n hn
        rcases List.mem_append.1 hn with hn | hn
        · have := hbound n hn
          exact ⟨Nat.lt_succ_of_lt this.1, this.2⟩
        · simp only [List.mem_singleton] at hn
          subst hn
          exact ⟨Nat.lt_succ_self _, Nat.le_refl _⟩
  · simp only [create_endpoint, hval, if_false]
    simpa using h

/-- The row transformation of an update does not touch `created_at`. -/
theorem applyUpdate_preserves_created_at (note_id : Nat) (tt cc : String)
    (now : Nat) (n : Note) :
    (applyUpdate note_id tt cc now n).created_at = n.created_at := by
  by_cases h : n.id = note_id <;> simp [applyUpdate, h]

/-- The ids of the rows are unchanged by an update. -/
theorem map_applyUpdate_ids (l : List Note) (note_id : Nat) (tt cc : String)
    (now : Nat) :
    (l.map (applyUpdate note_id tt cc now)).map Note.id = l.map Note.id := by
  rw [List.map_map]
  exact List.map_congr_left (fun n _ => applyUpdate_preserves_id note_id tt cc now n)

/-- The update endpoint preserves the strengthened invariant. -/
theorem storeWF_update (s : Store) (t : Nat) (note_id : Nat) (q : NoteUpdate)
    (fault : DbFault) (h : StoreWF s t) :
    StoreWF (update_endpoint s note_id q t fault).2 t := by
  by_cases hval : q.valid = true
  · simp only [update_endpoint, hval, if_true]
    by_cases hno : (q.title.isNone && q.content.isNone) = true
    · simp only [update_note, hno, if_true]
      exact h
    · rw [Bool.not_eq_true] at hno
      cases hex : fetch_one_note s note_id with
      | none =>
          simp only [update_note, hno, Bool.false_eq_true, if_false, hex]
          exact h
      | some old =>
          by_cases hf : fault = DbFault.integrityError
          · subst hf
            simp only [update_note, hno, Bool.false_eq_true, if_false, hex,
              if_true]
            exact h
          · rw [update_note_store s note_id q t fault old hno hex hf]
            obtain ⟨⟨hnodup, hfacts⟩, hbound⟩ := h
            have hold : old ∈ s.notes := List.mem_of_find?_eq_some hex
            have htitle : q.title.getD old.title ≠ "" := by
              cases hqt : q.title with
              | none => simpa using (hfacts old hold).2.1
              | some u =>
                  have := hval
                  simp [NoteUpdate.valid, hqt] at this
                  simpa using validTitleField_ne_empty u this.1
            have hcontent : q.content.getD old.content ≠ "" := by
              cases hqc : q.content with
              | none => simpa using (hfacts old hold).2.2
              | some u =>
                  have := hval
                  simp [NoteUpdate.valid, hqc] at this
                  simpa using validContentField_ne_empty u this.2
            refine ⟨⟨?_, ?_⟩, ?_⟩
            · have hids := map_applyUpdate_ids s.notes note_id
                (q.title.getD old.title) (q.content.getD old.content) t
              rw [List.map_map] at hids
              simp only [List.map_map]
              rw [hids]
              exact hnodup
            · intro n hn
              obtain ⟨m, hm, rfl⟩ := List.mem_map.1 hn
              by_cases hmid : m.id = note_id
              · simp only [applyUpdate, hmid, if_true]
                exact ⟨(hbound m hm).2, htitle, hcontent⟩
              · simp only [applyUpdate, hmid, if_false]
                exact hfacts m hm
            · intro n hn
              obtain ⟨m, hm, rfl⟩ := List.mem_map.1 hn
              refine ⟨?_, ?_⟩
              · rw [applyUpdate_preserves_id]
                exact (hbound m hm).1
              · rw [applyUpdate_preserves_created_at]
                exact (hbound m hm).2
  · simp only [update_endpoint, hval, if_false]
    simpa using h

/-- The delete handler preserves the strengthened invariant. -/
theorem storeWF_delete (s : Store) (t : Nat) (note_id : Nat) (h : StoreWF s t) :
    StoreWF (delete_note s note_id).2 t := by
  rw [delete_note_store]
  obtain ⟨⟨hnodup, hfacts⟩, hbound⟩ := h
  refine ⟨⟨?_, ?_⟩, ?_⟩
  · exact List.Nodup.sublist (List.Sublist.map Note.id (List.filter_sublist _)) hnodup
  · intro n hn
    exact hfacts n (List.mem_of_mem_filter hn)
  · intro n hn
    exact hbound n (List.mem_of_mem_filter hn)

/-- Advancing the clock preserves the strengthened invariant. -/
theorem storeWF_tick (s : Store) (t t2 : Nat) (ht : t ≤ t2) (h : StoreWF s t) :
    StoreWF s t2 :=
  ⟨h.1, fun n hn => ⟨(h.2 n hn).1, Nat.le_trans (h.2 n hn).2 ht⟩⟩

/-- Every reachable state satisfies the strengthened invariant. -/
theorem reachable_storeWF (s : Store) (t : Nat) (h : Reachable s t) :
    StoreWF s t := by
  induction h with
  | init =>
      refine ⟨⟨?_, ?_⟩, ?_⟩ <;> simp [emptyStore]
  | tick h ht ih => exact storeWF_tick _ _ _ ht ih
  | createStep p fault h ih => exact storeWF_create _ _ p fault ih
  | listStep h ih => exact ih
  | getStep note_id h ih => exact ih
  | updateStep note_id q fault h ih => exact storeWF_update _ _ note_id q fault ih
  | deleteStep note_id h ih => exact storeWF_delete _ _ note_id ih

/-- C8: every store state reachable from the fresh store by the five
operations (create, list, get, update, delete, under a monotone clock and
arbitrary driver faults) satisfies the data-model invariants: ids are
pairwise distinct, `updated_at >= created_at` for every persisted note, and
no persisted note has an empty `title` or `content`; since every operation
maps reachable states to reachable states, each operation preserves the
invariants. -/
theorem reachable_state_invariant (s : Store) (t : Nat) (h : Reachable s t) :
    StoreInvariant s :=
  (reachable_storeWF s t h).1

/-- Witness for C8: the state after one create on the fresh store. -/
theorem reachable_state_invariant_witness :
    StoreInvariant (create_endpoint emptyStore ⟨"a", "b"⟩ 0 DbFault.none).2 :=
  reachable_state_invariant _ 0
    (Reachable.createStep ⟨"a", "b"⟩ DbFault.none Reachable.init)

end NotesApp
